import Mathlib

/-!
Verification of the NeuroLens hybrid perception-to-narration orchestrator.

This file gives a shallow embedding, in Lean 4, of the TypeScript services of
the repository (VisionService, LLMService, MistralService, VoiceService,
HapticService, OCRService and the CameraScreen orchestration code) and proves
or refutes the frozen correctness claims about them.

Modelling conventions:
- JavaScript numbers are modelled as rationals (ℚ); all the arithmetic the
  claims concern (thresholds, box geometry, distance estimation, confidence
  constants) is exact in ℚ.
- `async` functions that can throw are modelled as `Except String α`;
  functions that cannot throw are plain functions.
- External effects (the network, the platform speech/haptics API, the camera)
  are modelled as explicit oracle arguments supplying the outcome of each
  call; a `try/catch` in the source becomes a `match` on the oracle result.
- Optional TS fields become `Option`; the JS `x || d` idiom on numbers is
  modelled by `jsNumOr`, which treats both `undefined` and `0` as falsy.
-/

namespace NeuroLens

/-! ### VisionService (Detector) -/

namespace VisionService

/-- Bounding box in the normalized `(x, y, width, height)` form produced by
`processPredictions` (from the `DetectedObject` interface). -/
structure BoundingBox where
  x : ℚ
  y : ℚ
  width : ℚ
  height : ℚ
  deriving DecidableEq, Repr

/-- `DetectedObject` from VisionService.ts: one normalized detection. -/
structure DetectedObject where
  label : String
  confidence : ℚ
  boundingBox : BoundingBox
  distance : Option ℚ
  deriving DecidableEq, Repr

/-- One raw model prediction: the `i`-th entries of the parallel
`scores` / `boxes` / `classes` arrays read from the output tensors.
Boxes are in the raw model `(y1, x1, y2, x2)` order. -/
structure RawPrediction where
  score : ℚ
  y1 : ℚ
  x1 : ℚ
  y2 : ℚ
  x2 : ℚ
  classId : ℚ
  deriving DecidableEq, Repr

/-- The `cocoLabels` lookup table from `getClassLabel`. -/
def cocoLabels : List String :=
  ["unknown", "person", "bicycle", "car", "motorcycle", "airplane", "bus", "train", "truck",
   "boat", "traffic light", "fire hydrant", "street sign", "stop sign", "parking meter", "bench",
   "bird", "cat", "dog", "horse", "sheep", "cow", "elephant", "bear", "zebra",
   "giraffe", "hat", "backpack", "umbrella", "shoe", "eye glasses", "handbag", "tie", "suitcase", "frisbee",
   "skis", "snowboard", "sports ball", "kite", "baseball bat", "baseball glove",
   "skateboard", "surfboard", "tennis racket", "bottle", "plate", "wine glass", "cup",
   "fork", "knife", "spoon", "bowl", "banana", "apple", "sandwich", "orange",
   "broccoli", "carrot", "hot dog", "pizza", "donut", "cake", "chair", "couch",
   "potted plant", "bed", "mirror", "dining table", "window", "desk", "toilet", "door", "tv", "laptop", "mouse",
   "remote", "keyboard", "cell phone", "microwave", "oven", "toaster", "sink",
   "refrigerator", "blender", "book", "clock", "vase", "scissors", "teddy bear", "hair drier",
   "toothbrush", "hair brush"]

/-- `getClassLabel`: `cocoLabels[Math.floor(classId)] || "unknown"` (single-quoted in TS).
An out-of-range (including negative) index reads `undefined` in JS, which is
falsy, so the label falls back to `"unknown"` (no label in the table is the
empty string, so no in-range entry is falsy). -/
def getClassLabel (classId : ℚ) : String :=
  let idx : ℤ := ⌊classId⌋
  if idx < 0 then "unknown" else cocoLabels.getD idx.toNat "unknown"

/-- `estimateDistance`: distance from normalized box height;
`(realHeight * focalLength) / (objectHeight * 300)` with a fixed `10` when
`objectHeight === 0`. -/
def estimateDistance (objectHeight : ℚ) : ℚ :=
  let focalLength : ℚ := 600
  let realHeight : ℚ := 17 / 10
  if objectHeight = 0 then 10
  else (realHeight * focalLength) / (objectHeight * 300)

/-- The `confidenceThreshold` constant of `processPredictions`. -/
def confidenceThreshold : ℚ := 1 / 2

/-- The body of the `processPredictions` loop for one prediction that passed
the threshold: normalize the `(y1, x1, y2, x2)` box to `(x, y, width, height)`
and attach label and estimated distance. -/
def convertPrediction (p : RawPrediction) : DetectedObject :=
  { label := getClassLabel p.classId
    confidence := p.score
    boundingBox := { x := p.x1, y := p.y1, width := p.x2 - p.x1, height := p.y2 - p.y1 }
    distance := some (estimateDistance (p.y2 - p.y1)) }

/-- `processPredictions`: iterate over the parallel prediction arrays,
keeping exactly the entries with `scores[i] > confidenceThreshold`
(strict comparison in the source). -/
def processPredictions : List RawPrediction → List DetectedObject
  | [] => []
  | p :: rest =>
    if p.score > confidenceThreshold then convertPrediction p :: processPredictions rest
    else processPredictions rest

/-- A prediction whose score is exactly the 0.5 threshold. -/
def halfScorePrediction : RawPrediction :=
  { score := 1 / 2, y1 := 0, x1 := 0, y2 := 1 / 2, x2 := 1 / 2, classId := 1 }

/-- A prediction with score 0.499, just below the threshold. -/
def lowScorePrediction : RawPrediction :=
  { score := 499 / 1000, y1 := 0, x1 := 0, y2 := 1 / 2, x2 := 1 / 2, classId := 1 }

/-- A prediction with score 0.6, above the threshold. -/
def strongPrediction : RawPrediction :=
  { score := 3 / 5, y1 := 1 / 10, x1 := 1 / 10, y2 := 1 / 2, x2 := 1 / 2, classId := 62 }

/-- A malformed prediction with `y2 < y1` and `x2 < x1` (and a passing
score), as emitted by a misbehaving model. -/
def malformedPrediction : RawPrediction :=
  { score := 9 / 10, y1 := 1 / 2, x1 := 1 / 2, y2 := 1 / 5, x2 := 1 / 5, classId := 1 }

end VisionService

/-! ### Shared LLM-layer data model -/

/-- The `source` tag of an `LLMResponse`
(the TS union of mistral, local and template in LLMService.ts). -/
inductive Source
  | mistral
  | local
  | template
  deriving DecidableEq, Repr

/-- `LLMResponse` from LLMService.ts (MistralService results are returned
through the same shape; there the `source` field is always present and set to
the mistral tag). The TS `source` field is optional, hence `Option`. -/
structure LLMResponse where
  text : String
  confidence : ℚ
  processingTime : ℕ
  source : Option Source
  deriving DecidableEq, Repr

/-- The object records the LLM layer consumes:
`{ label, confidence, distance? }`. -/
structure SceneObject where
  label : String
  confidence : ℚ
  distance : Option ℚ
  deriving DecidableEq, Repr

/-- The JS idiom `v || dflt` applied to an optional number: `undefined` and
`0` are both falsy, so both select the default. -/
def jsNumOr (v : Option ℚ) (dflt : ℚ) : ℚ :=
  match v with
  | none => dflt
  | some q => if q = 0 then dflt else q

/-- JS `Math.round`: round half toward positive infinity. -/
def jsRound (q : ℚ) : ℤ := ⌊q + 1 / 2⌋

/-- JS `String.prototype.includes` (substring test). -/
def containsSub (s pat : String) : Bool :=
  let sl := s.data
  let pl := pat.data
  (List.range (sl.length + 1)).any (fun i => decide ((sl.drop i).take pl.length = pl))

/-! ### MistralService (cloud narration provider)

Each cloud operation builds a prompt from its arguments, POSTs it and reads
`response.choices[0].message.content`. The network round trip, including a
non-2xx response or a malformed body (both of which throw inside the `try`),
is modelled by an oracle `net : Except String String` supplying either the
completion text or a thrown error. Availability (`isAvailable()`, i.e. the
`isEnabled` flag) is passed explicitly. Arguments that only shape the prompt
do not affect the result fields and are kept for fidelity of signature. -/

namespace MistralService

/-- `generateEnhancedDescription`: cloud scene description, confidence 0.95,
source mistral; throws when unavailable or when the call fails. -/
def generateEnhancedDescription (available : Bool) (net : Except String String)
    (objects : List SceneObject) (sceneType lightingCondition : String)
    (detectedText : Option String) (elapsed : ℕ) : Except String LLMResponse :=
  if available = false then .error "Mistral Service not available"
  else
    match net with
    | .error e => .error e
    | .ok content =>
      .ok { text := content.trim, confidence := 95 / 100,
            processingTime := elapsed, source := some Source.mistral }

/-- `generateNavigationGuidance` (cloud): confidence 0.90, source mistral. -/
def generateNavigationGuidance (available : Bool) (net : Except String String)
    (targetObject : String) (currentObjects : List SceneObject)
    (userIntent : String) (elapsed : ℕ) : Except String LLMResponse :=
  if available = false then .error "Mistral Service not available"
  else
    match net with
    | .error e => .error e
    | .ok content =>
      .ok { text := content.trim, confidence := 90 / 100,
            processingTime := elapsed, source := some Source.mistral }

/-- `answerQuestion` (cloud): confidence 0.92, source mistral. -/
def answerQuestion (available : Bool) (net : Except String String)
    (question : String) (objects : List SceneObject)
    (sceneType lightingCondition : String) (elapsed : ℕ) : Except String LLMResponse :=
  if available = false then .error "Mistral Service not available"
  else
    match net with
    | .error e => .error e
    | .ok content =>
      .ok { text := content.trim, confidence := 92 / 100,
            processingTime := elapsed, source := some Source.mistral }

/-- `analyzeImageWithVision` (cloud, Pixtral): confidence 0.98, source
mistral. -/
def analyzeImageWithVision (available : Bool) (net : Except String String)
    (imageBase64 : String) (mimeType : String) (elapsed : ℕ) : Except String LLMResponse :=
  if available = false then .error "Mistral Service not available"
  else
    match net with
    | .error e => .error e
    | .ok content =>
      .ok { text := content.trim, confidence := 98 / 100,
            processingTime := elapsed, source := some Source.mistral }

end MistralService

/-! ### LLMService (fallback chain: cloud, then local template) -/

namespace LLMService

/-- The close group of `generateTemplateDescription`:
`objects.filter(o => (o.distance || 10) < 2)`. -/
def closeObjects (objects : List SceneObject) : List SceneObject :=
  objects.filter (fun o => decide (jsNumOr o.distance 10 < 2))

/-- The far group of `generateTemplateDescription`:
`objects.filter(o => (o.distance || 10) >= 2)`. -/
def farObjects (objects : List SceneObject) : List SceneObject :=
  objects.filter (fun o => decide (2 ≤ jsNumOr o.distance 10))

/-- `generateTemplateDescription`: pure template expansion, grouping objects
into close (`< 2` meters) and far (`>= 2` meters) after the `|| 10` default. -/
def generateTemplateDescription (objects : List SceneObject)
    (sceneType lightingCondition : String) : String :=
  if objects.length = 0 then
    "You appear to be in a " ++ sceneType ++ " area with " ++ lightingCondition ++
      " lighting. No specific objects detected nearby."
  else
    let close := closeObjects objects
    let far := farObjects objects
    let description :=
      "You\x27re in a " ++ sceneType ++ " area with " ++ lightingCondition ++ " lighting. "
    let description :=
      if close.length > 0 then
        description ++ "Close to you: " ++
          String.intercalate ", " (close.map (fun o => o.label)) ++ ". "
      else description
    let description :=
      if far.length > 0 then
        description ++ "Further away: " ++
          String.intercalate ", " (far.map (fun o => o.label)) ++ "."
      else description
    description

/-- `generateTemplateNavigation`: find the first object whose lowercased
label contains the lowercased target; `target.distance || 5`, rounded. -/
def generateTemplateNavigation (targetObject : String)
    (currentObjects : List SceneObject) : String :=
  match currentObjects.find? (fun o => containsSub o.label.toLower targetObject.toLower) with
  | some target =>
    let distance := jsNumOr target.distance 5
    targetObject ++ " is approximately " ++ toString (jsRound distance) ++
      " meters ahead of you."
  | none =>
    "I don\x27t see a " ++ targetObject ++ " in the current view. Try looking around."

/-- `generateTemplateAnswer`: keyword dispatch on the lowercased question. -/
def generateTemplateAnswer (question : String) (objects : List SceneObject)
    (sceneType : String) : String :=
  let lowerQuestion := question.toLower
  if containsSub lowerQuestion "what" || containsSub lowerQuestion "see" then
    "I can see " ++ String.intercalate ", " (objects.map (fun o => o.label)) ++
      " in this " ++ sceneType ++ "."
  else if containsSub lowerQuestion "where" then
    "You\x27re in a " ++ sceneType ++ " area."
  else if containsSub lowerQuestion "how many" then
    "I can see " ++ toString objects.length ++ " objects."
  else
    "I see " ++ toString objects.length ++ " objects in this " ++ sceneType ++ "."

/-- `LLMService.generateSceneDescription`: try Mistral when available (an
inner `catch` swallows any cloud failure), then fall through to the local
template with confidence 0.85 and source template. The outer `try/catch`
rethrows, but the template path is pure string formatting and cannot throw,
so every fall-through returns `.ok`. -/
def generateSceneDescription (available : Bool) (net : Except String String)
    (objects : List SceneObject) (sceneType lightingCondition : String)
    (detectedText : Option String) (elapsed : ℕ) : Except String LLMResponse :=
  let cloud : Option LLMResponse :=
    if available then
      match MistralService.generateEnhancedDescription available net objects
          sceneType lightingCondition detectedText elapsed with
      | .ok r => some r
      | .error _ => none
    else none
  match cloud with
  | some r => .ok r
  | none =>
    .ok { text := generateTemplateDescription objects sceneType lightingCondition
          confidence := 85 / 100
          processingTime := elapsed
          source := some Source.template }

/-- `LLMService.generateNavigationGuidance`: cloud first, else the local
navigation template with confidence 0.80 and source template. -/
def generateNavigationGuidance (available : Bool) (net : Except String String)
    (targetObject : String) (currentObjects : List SceneObject)
    (userIntent : String) (elapsed : ℕ) : Except String LLMResponse :=
  let cloud : Option LLMResponse :=
    if available then
      match MistralService.generateNavigationGuidance available net targetObject
          currentObjects userIntent elapsed with
      | .ok r => some r
      | .error _ => none
    else none
  match cloud with
  | some r => .ok r
  | none =>
    .ok { text := generateTemplateNavigation targetObject currentObjects
          confidence := 80 / 100
          processingTime := elapsed
          source := some Source.template }

/-- `LLMService.answerQuestion`: cloud first, else the local answer template
with confidence 0.75 and source template. -/
def answerQuestion (available : Bool) (net : Except String String)
    (question : String) (objects : List SceneObject)
    (sceneType lightingCondition : String) (elapsed : ℕ) : Except String LLMResponse :=
  let cloud : Option LLMResponse :=
    if available then
      match MistralService.answerQuestion available net question objects
          sceneType lightingCondition elapsed with
      | .ok r => some r
      | .error _ => none
    else none
  match cloud with
  | some r => .ok r
  | none =>
    .ok { text := generateTemplateAnswer question objects sceneType
          confidence := 75 / 100
          processingTime := elapsed
          source := some Source.template }

/-- The chair object of the fallback-law scenario: distance 1.5 m. -/
def chairObject : SceneObject := { label := "chair", confidence := 9 / 10, distance := some (3 / 2) }

/-- The couch object of the fallback-law scenario: distance 4 m. -/
def couchObject : SceneObject := { label := "couch", confidence := 9 / 10, distance := some 4 }

/-- The object list of the fallback-law scenario. -/
def scenarioObjects : List SceneObject := [chairObject, couchObject]

/-- An object whose `distance` field is absent. -/
def mysteryObject : SceneObject := { label := "vase", confidence := 6 / 10, distance := none }

/-- An object whose `distance` field is exactly 0. -/
def zeroDistanceObject : SceneObject := { label := "person", confidence := 8 / 10, distance := some 0 }

end LLMService

/-! ### VoiceService (voice output channel) -/

namespace VoiceService

/-- The mutable voice-channel state of VoiceService.ts: the `isSpeaking`
flag and the FIFO `speechQueue`. -/
structure VoiceState where
  isSpeaking : Bool
  speechQueue : List String
  deriving DecidableEq, Repr

/-- Observable platform calls made by the voice channel:
`Speech.stop()` and a `Speech.speak(text, ...)` that started an utterance. -/
inductive VEvent
  | stop
  | utter (text : String)
  deriving DecidableEq, Repr

/-- `speak(text, priority)`. If `priority`, first `stop()` (which also clears
`isSpeaking`) and discard the queue. Then: if still speaking and not
priority, append to the queue; otherwise set `isSpeaking` and call the
platform `Speech.speak`. `platformOk` is the oracle for the surrounding
`try/catch`: on a platform throw the catch clears `isSpeaking` and no
utterance starts. Returns the new state and the platform calls made. -/
def speak (s : VoiceState) (text : String) (priority : Bool) (platformOk : Bool) :
    VoiceState × List VEvent :=
  let (s1, events) :=
    if priority then
      (({ isSpeaking := false, speechQueue := [] } : VoiceState), [VEvent.stop])
    else (s, ([] : List VEvent))
  if s1.isSpeaking && !priority then
    ({ s1 with speechQueue := s1.speechQueue ++ [text] }, events)
  else
    if platformOk then
      ({ s1 with isSpeaking := true }, events ++ [VEvent.utter text])
    else
      ({ s1 with isSpeaking := false }, events)

/-- The `onDone` completion callback followed by `processQueue()`: clear
`isSpeaking`, then if the queue is non-empty, shift the head and `speak` it
(with the default `priority = false`). -/
def utteranceDone (s : VoiceState) (platformOk : Bool) : VoiceState × List VEvent :=
  let s1 : VoiceState := { s with isSpeaking := false }
  match s1.speechQueue with
  | [] => (s1, [])
  | next :: rest => speak { s1 with speechQueue := rest } next false platformOk

end VoiceService

/-! ### HapticService (haptic output channel) -/

namespace HapticService

/-- The named haptic patterns of HapticService.ts. -/
inductive HapticPattern
  | objectDetected
  | textFound
  | navigationCue
  | warning
  | success
  | error
  deriving DecidableEq, Repr

/-- `Haptics.ImpactFeedbackStyle`. -/
inductive ImpactStyle
  | light
  | medium
  | heavy
  deriving DecidableEq, Repr

/-- `Haptics.NotificationFeedbackType` (the two used). -/
inductive FeedbackKind
  | success
  | error
  deriving DecidableEq, Repr

/-- One step of a pattern: a platform impact call, a notification call, or
an inter-pulse delay. The same type describes the executed trace. -/
inductive HStep
  | impact (style : ImpactStyle)
  | delayMs (ms : ℕ)
  | feedback (kind : FeedbackKind)
  deriving DecidableEq, Repr

/-- The `switch (pattern)` of `trigger`, as the straight-line sequence of
awaited calls each case performs. The `warning` case is the 3-iteration
loop `impact Medium; delay(150)`. -/
def patternSteps : HapticPattern → List HStep
  | .objectDetected => [HStep.impact ImpactStyle.light]
  | .textFound =>
    [HStep.impact ImpactStyle.light, HStep.delayMs 100, HStep.impact ImpactStyle.light]
  | .navigationCue => [HStep.impact ImpactStyle.medium]
  | .warning =>
    (List.replicate 3 [HStep.impact ImpactStyle.medium, HStep.delayMs 150]).flatten
  | .success => [HStep.feedback FeedbackKind.success]
  | .error => [HStep.feedback FeedbackKind.error]

/-- Execute the steps in order. Platform calls (impacts and notifications)
can throw; `ok k` tells whether the `k`-th platform call succeeds. A throw
aborts the remaining steps (the exception propagates to the `catch` in
`trigger`); the steps already executed are the returned trace. Delays
(`setTimeout`) cannot throw. -/
def runSteps : List HStep → (ℕ → Bool) → ℕ → List HStep
  | [], _, _ => []
  | HStep.impact s :: rest, ok, k =>
    if ok k then HStep.impact s :: runSteps rest ok (k + 1) else []
  | HStep.feedback t :: rest, ok, k =>
    if ok k then HStep.feedback t :: runSteps rest ok (k + 1) else []
  | HStep.delayMs m :: rest, ok, k => HStep.delayMs m :: runSteps rest ok k

/-- `trigger(pattern)`: no-op when disabled; otherwise run the steps of the
pattern with the whole body inside a `try/catch` that logs and swallows any
platform failure, so the call always completes normally. -/
def trigger (isEnabled : Bool) (pattern : HapticPattern) (ok : ℕ → Bool) : List HStep :=
  if isEnabled = false then [] else runSteps (patternSteps pattern) ok 0

/-- Recognizer for pulse (impact) steps in a trace. -/
def isImpact : HStep → Bool
  | HStep.impact _ => true
  | _ => false

/-- The full warning trace: 3 medium pulses, each followed by the 150 ms
inter-pulse delay. -/
def warningTrace : List HStep :=
  [HStep.impact ImpactStyle.medium, HStep.delayMs 150,
   HStep.impact ImpactStyle.medium, HStep.delayMs 150,
   HStep.impact ImpactStyle.medium, HStep.delayMs 150]

end HapticService

/-! ### OCRService (text-recognition collaborator, a stub) -/

namespace OCRService

/-- `TextDetection` from OCRService.ts. -/
structure TextDetection where
  text : String
  confidence : ℚ
  boundingBox : VisionService.BoundingBox
  deriving DecidableEq, Repr

/-- `OCRResult` from OCRService.ts. -/
structure OCRResult where
  detections : List TextDetection
  fullText : String
  deriving DecidableEq, Repr

/-- `detectText`: throws when not initialized; otherwise the current
implementation is a stub that always returns an empty detection list. -/
def detectText (isInit : Bool) : Except String OCRResult :=
  if isInit then .ok { detections := [], fullText := "" }
  else .error "OCR Service not initialized"

/-- The reading order induced by the sort comparator of
`organizeTextForReading`: detections more than 20 apart vertically are
ordered by `y`, otherwise by `x`. -/
def readingOrder (a b : TextDetection) : Bool :=
  if 20 < |a.boundingBox.y - b.boundingBox.y| then
    decide (a.boundingBox.y ≤ b.boundingBox.y)
  else
    decide (a.boundingBox.x ≤ b.boundingBox.x)

/-- `organizeTextForReading`: sort by reading order, join texts by spaces. -/
def organizeTextForReading (detections : List TextDetection) : String :=
  String.intercalate " " ((detections.mergeSort readingOrder).map (fun d => d.text))

end OCRService

/-! ### CameraScreen (CaptureOrchestrator)

`analyzeCurrentFrame` in CameraScreen.tsx is the capture-to-announce cycle.
Its shape is: an entry guard (`if (!cameraRef.current || isProcessing)
return`), then `setIsProcessing(true)`, a `try` body, a `catch` that logs
and — on vocal cycles — announces the failure, and a `finally` that runs
`setIsProcessing(false)`. The cooperative single-threaded model treats the
guard flag as a plain boolean field; every awaited external call inside the
body is supplied by a `CycleEnv` oracle, so quantifying over the
environment quantifies over every exit path (normal completion, capture
failure, inference failure, narration failure). -/

namespace CameraScreen

/-- The operating modes (`currentMode`). -/
inductive Mode
  | scene
  | text
  | navigate
  deriving DecidableEq, Repr

/-- The orchestrator state visible to the guard logic: camera availability
(`cameraRef.current`), the single-flight flag (`isProcessing`) and the
current mode. -/
structure OrchState where
  hasCamera : Bool
  isProcessing : Bool
  currentMode : Mode
  deriving DecidableEq, Repr

/-- `SceneAnalysis` from VisionService.ts, at the granularity the
orchestrator consumes. -/
structure SceneAnalysis where
  objects : List SceneObject
  dominantColors : List String
  sceneType : String
  lightingCondition : String
  deriving DecidableEq, Repr

/-- Outcomes of every awaited external call one cycle can make. `Except`
fields model calls that may throw. -/
structure CycleEnv where
  /-- `takePictureAsync`: a thrown `CaptureError`, or the optional photo
  `base64` payload. -/
  captureResult : Except String (Option String)
  /-- `VisionService.isInitialized()`. -/
  visionInitialized : Bool
  /-- `VisionService.analyzeScene`: may throw an `InferenceError`. -/
  sceneResult : Except String SceneAnalysis
  /-- The Mistral `isEnabled` flag (drives both `isAvailable()` and
  `getStatus().enabled`). -/
  mistralEnabled : Bool
  /-- `getStatus().hasApiKey`. -/
  mistralHasKey : Bool
  /-- The network oracle for the LLM narration call of this cycle. -/
  llmNet : Except String String
  /-- The second `takePictureAsync` of the Mistral-vision fallback branch. -/
  secondCapture : Except String (Option String)
  /-- The network oracle for `analyzeImageWithVision`. -/
  mistralVisionNet : Except String String
  /-- `OCRService.isInitialized()`. -/
  ocrInitialized : Bool
  deriving Repr

/-- Observable output-channel calls a cycle makes. -/
inductive Event
  | haptic (pattern : HapticService.HapticPattern)
  | voice (text : String) (priority : Bool)
  deriving DecidableEq, Repr

/-- The entry guard plus `setIsProcessing(true)`:
`if (!cameraRef.current || isProcessing) return;` — returns the state after
the trigger and whether a cycle was actually entered. -/
def beginCycle (s : OrchState) : OrchState × Bool :=
  if !s.hasCamera || s.isProcessing then (s, false)
  else ({ s with isProcessing := true }, true)

/-- The `finally` clause: `setIsProcessing(false)`. -/
def endCycle (s : OrchState) : OrchState := { s with isProcessing := false }

/-- The Mistral-vision fallback sub-branch of the scene case (taken when
`VisionService` is not initialized but Mistral is enabled with a key). Its
own `try/catch` handles failures locally, so this sub-branch never throws. -/
def mistralFallbackEvents (env : CycleEnv) : List Event :=
  match env.secondCapture with
  | .error _ => [Event.voice "Scene analysis failed. Please check your connection." true]
  | .ok none => []
  | .ok (some b64) =>
    match MistralService.analyzeImageWithVision env.mistralEnabled env.mistralVisionNet
        b64 "image/jpeg" 0 with
    | .ok response =>
      [Event.haptic HapticService.HapticPattern.success, Event.voice response.text true]
    | .error _ =>
      [Event.haptic HapticService.HapticPattern.success,
       Event.voice "Scene analysis failed. Please check your connection." true]

/-- The `try` body of `analyzeCurrentFrame`: capture a frame, then branch on
the mode. A `.error` result is an exception propagating to the `catch`. -/
def runCycleBody (speakResult : Bool) (mode : Mode) (env : CycleEnv) :
    Except String (List Event) := do
  let base64 ← env.captureResult
  match mode with
  | .scene =>
    if env.visionInitialized && base64.isSome then do
      let scene ← env.sceneResult
      if scene.objects.length > 0 then
        if speakResult then do
          let description ← LLMService.generateSceneDescription env.mistralEnabled
            env.llmNet scene.objects scene.sceneType scene.lightingCondition none 0
          pure [Event.haptic HapticService.HapticPattern.objectDetected,
                Event.voice description.text true]
        else
          pure [Event.haptic HapticService.HapticPattern.objectDetected]
      else pure []
    else
      if env.mistralEnabled && env.mistralHasKey then
        pure (mistralFallbackEvents env)
      else
        pure [Event.voice "Vision service unavailable. Please check settings." true]
  | .text =>
    if env.ocrInitialized && base64.isSome then do
      let ocrResult ← OCRService.detectText env.ocrInitialized
      if ocrResult.detections.length > 0 then
        if speakResult then
          pure [Event.haptic HapticService.HapticPattern.textFound,
                Event.voice ("Text found: " ++
                  OCRService.organizeTextForReading ocrResult.detections) true]
        else
          pure [Event.haptic HapticService.HapticPattern.textFound]
      else
        if speakResult then pure [Event.voice "No text detected" true]
        else pure []
    else pure []
  | .navigate => pure []

/-- `analyzeCurrentFrame(speakResult)`: guard, body, `catch` (log; on vocal
cycles announce the failure and trigger the error haptic), `finally`
(release the single-flight flag). Returns the post-trigger state and the
output-channel calls made. -/
def analyzeCurrentFrame (speakResult : Bool) (s : OrchState) (env : CycleEnv) :
    OrchState × List Event :=
  match beginCycle s with
  | (s0, false) => (s0, [])
  | (s1, true) =>
    let events :=
      match runCycleBody speakResult s1.currentMode env with
      | .ok events => events
      | .error _ =>
        if speakResult then
          [Event.voice "Analysis failed. Please try again" true,
           Event.haptic HapticService.HapticPattern.error]
        else []
    (endCycle s1, events)

/-- A state with a cycle already in flight. -/
def busyState : OrchState :=
  { hasCamera := true, isProcessing := true, currentMode := Mode.scene }

/-- An idle state ready to start a cycle. -/
def idleState : OrchState :=
  { hasCamera := true, isProcessing := false, currentMode := Mode.scene }

/-- An environment where every external call succeeds benignly. -/
def benignEnv : CycleEnv :=
  { captureResult := .ok (some "frame")
    visionInitialized := true
    sceneResult := .ok { objects := [], dominantColors := [], sceneType := "unknown",
                         lightingCondition := "dim" }
    mistralEnabled := false
    mistralHasKey := false
    llmNet := .error "offline"
    secondCapture := .ok none
    mistralVisionNet := .error "offline"
    ocrInitialized := false }

/-- An environment whose frame capture throws (a `CaptureError` path). -/
def captureFailEnv : CycleEnv :=
  { benignEnv with captureResult := .error "device busy" }

/-- An environment whose inference call throws (an `InferenceError` path). -/
def inferenceFailEnv : CycleEnv :=
  { benignEnv with sceneResult := .error "model unavailable" }

end CameraScreen

/-! ## Theorems for the claims -/

/-- Claim C1, counterexample: the claim asserts that a detection with
confidence exactly 0.5 is included, but `processPredictions` uses the strict
comparison `scores[i] > confidenceThreshold`, so a prediction whose score is
exactly 0.5 (which is `≥ 0.5`) produces an empty detection list. -/
theorem C1_counterexample :
    VisionService.halfScorePrediction.score ≥ 1 / 2 ∧
    VisionService.processPredictions [VisionService.halfScorePrediction] = [] := by
  constructor
  · norm_num [VisionService.halfScorePrediction]
  · norm_num [VisionService.processPredictions, VisionService.halfScorePrediction,
      VisionService.confidenceThreshold]

/-- Claim C1, amended: the sequence returned by `processPredictions` contains
a detection if and only if its score `c` satisfies `c > 0.5` (strict): the
output is exactly the map of the conversion over the predictions with score
strictly above the threshold; at the boundary, `c = 0.5` is excluded,
`c = 0.499` is excluded and `c = 0.6` is included. -/
theorem C1_amended :
    (∀ preds : List VisionService.RawPrediction,
      VisionService.processPredictions preds
        = (preds.filter
            (fun p => decide (VisionService.confidenceThreshold < p.score))).map
            VisionService.convertPrediction) ∧
    VisionService.processPredictions [VisionService.halfScorePrediction] = [] ∧
    VisionService.processPredictions [VisionService.lowScorePrediction] = [] ∧
    VisionService.processPredictions [VisionService.strongPrediction]
      = [VisionService.convertPrediction VisionService.strongPrediction] := by
  refine ⟨?_,
    by norm_num [VisionService.processPredictions, VisionService.halfScorePrediction,
          VisionService.confidenceThreshold],
    by norm_num [VisionService.processPredictions, VisionService.lowScorePrediction,
          VisionService.confidenceThreshold],
    by norm_num [VisionService.processPredictions, VisionService.strongPrediction,
          VisionService.confidenceThreshold]⟩
  intro preds
  induction preds with
  | nil => rfl
  | cons p rest ih =>
    by_cases hp : VisionService.confidenceThreshold < p.score
    · simp [VisionService.processPredictions, List.filter_cons, hp, ih, GT.gt]
    · simp [VisionService.processPredictions, List.filter_cons, hp, ih, GT.gt]

/-- Claim C4, counterexample: the claim asserts that negative widths and
heights are clamped to 0, but the code computes `width: x2 - x1` and
`height: y2 - y1` directly: the malformed prediction with `y2 < y1` and
`x2 < x1` yields a detection whose bounding-box height is `-0.3 < 0`. -/
theorem C4_counterexample :
    (VisionService.processPredictions [VisionService.malformedPrediction]).map
        (fun d => d.boundingBox.height) = [-(3 / 10)] ∧
    (-(3 / 10) : ℚ) < 0 := by
  constructor
  · norm_num [VisionService.processPredictions, VisionService.malformedPrediction,
      VisionService.confidenceThreshold, VisionService.convertPrediction]
  · norm_num

/-- Claim C4, amended: for every raw box, including malformed ones, the
bounding box of the detection carries `width = x2 - x1` and `height = y2 - y1`
unclamped (so they are negative exactly when the box is inverted), and no
error is raised — every surviving detection comes from some input
prediction by this total conversion. -/
theorem C4_amended (preds : List VisionService.RawPrediction)
    (d : VisionService.DetectedObject)
    (hd : d ∈ VisionService.processPredictions preds) :
    ∃ p ∈ preds, d.boundingBox.width = p.x2 - p.x1 ∧
      d.boundingBox.height = p.y2 - p.y1 := by
  induction preds with
  | nil => simp [VisionService.processPredictions] at hd
  | cons p rest ih =>
    rw [VisionService.processPredictions] at hd
    by_cases hp : p.score > VisionService.confidenceThreshold
    · rw [if_pos hp] at hd
      rcases List.mem_cons.mp hd with h1 | h2
      · exact ⟨p, List.mem_cons_self p rest, by subst h1; exact ⟨rfl, rfl⟩⟩
      · obtain ⟨q, hq, hw⟩ := ih h2
        exact ⟨q, List.mem_cons_of_mem p hq, hw⟩
    · rw [if_neg hp] at hd
      obtain ⟨q, hq, hw⟩ := ih hd
      exact ⟨q, List.mem_cons_of_mem p hq, hw⟩

/-- Witness for C4: the malformed prediction itself provides the concrete
instance. -/
theorem C4_witness :
    ∃ p ∈ [VisionService.malformedPrediction],
      (VisionService.convertPrediction VisionService.malformedPrediction).boundingBox.width
          = p.x2 - p.x1 ∧
      (VisionService.convertPrediction VisionService.malformedPrediction).boundingBox.height
          = p.y2 - p.y1 :=
  C4_amended [VisionService.malformedPrediction] _
    (by norm_num [VisionService.processPredictions, VisionService.malformedPrediction,
          VisionService.confidenceThreshold])

/-- Claim C5: `estimateDistance` never divides by zero: height 0 returns the
fixed fallback 10, and any nonzero height returns the exact rational
quotient `(1.7 * 600) / (h * 300)` — witnessed by the product identity
`estimateDistance h * (h * 300) = 1.7 * 600 = 1020`, which only a genuine
(finite, well-defined) quotient satisfies. -/
theorem C5_estimate_distance (h : ℚ) :
    (h = 0 → VisionService.estimateDistance h = 10) ∧
    (h ≠ 0 → h * 300 ≠ 0 ∧ VisionService.estimateDistance h * (h * 300) = 1020) := by
  constructor
  · intro h0
    simp [VisionService.estimateDistance, h0]
  · intro hne
    have h300 : h * 300 ≠ 0 := mul_ne_zero hne (by norm_num)
    refine ⟨h300, ?_⟩
    have hval : VisionService.estimateDistance h = 17 / 10 * 600 / (h * 300) := by
      simp [VisionService.estimateDistance, hne]
    rw [hval, div_mul_cancel₀ _ h300]
    norm_num

/-- Witness for C5 at `h = 0` and `h = 1/2`. -/
theorem C5_witness :
    VisionService.estimateDistance 0 = 10 ∧
    VisionService.estimateDistance (1 / 2) * (1 / 2 * 300) = 1020 :=
  ⟨(C5_estimate_distance 0).1 rfl, ((C5_estimate_distance (1 / 2)).2 (by norm_num)).2⟩

/-- Claim C2, counterexample: in the fallback-law scenario (cloud disabled,
objects chair at 1.5 m and couch at 4 m) the claim asserts the result has
source `local`, but the fallback path of the code tags the result with the
distinct enum value template (the `source` field set in
`LLMService.generateSceneDescription`), not local. -/
theorem C2_counterexample :
    (LLMService.generateSceneDescription false (.error "disabled")
        LLMService.scenarioObjects "indoor" "moderate" none 0).map
        (fun r => r.source) = .ok (some Source.template) ∧
    some Source.template ≠ some Source.local := by
  constructor
  · rfl
  · simp

/-- Claim C2, amended: for every object list, scene type and lighting
condition, if the cloud provider is disabled or its call fails,
`generateSceneDescription` returns (never raises) the template result with
source template (the on-device local path); in the scenario with chair
at 1.5 m and couch at 4 m, chair lands in the close group, couch in the far
group, and the text mentions chair under "Close to you" and couch under
"Further away". -/
theorem C2_amended :
    (∀ (available : Bool) (net : Except String String) (objects : List SceneObject)
        (sceneType lightingCondition : String) (detectedText : Option String) (elapsed : ℕ),
      (available = false ∨ ∃ e, net = .error e) →
      LLMService.generateSceneDescription available net objects sceneType
          lightingCondition detectedText elapsed
        = .ok { text := LLMService.generateTemplateDescription objects sceneType lightingCondition
                confidence := 85 / 100
                processingTime := elapsed
                source := some Source.template }) ∧
    LLMService.chairObject ∈ LLMService.closeObjects LLMService.scenarioObjects ∧
    LLMService.couchObject ∈ LLMService.farObjects LLMService.scenarioObjects ∧
    LLMService.generateTemplateDescription LLMService.scenarioObjects "indoor" "moderate"
      = "You\x27re in a indoor area with moderate lighting. Close to you: chair. Further away: couch." := by
  refine ⟨?_, ?_, ?_, ?_⟩
  · intro available net objects sceneType lightingCondition detectedText elapsed hyp
    rcases hyp with h | ⟨e, he⟩
    · subst h
      rfl
    · subst he
      cases available <;> rfl
  · norm_num [LLMService.closeObjects, LLMService.scenarioObjects, LLMService.chairObject,
      LLMService.couchObject, jsNumOr]
  · norm_num [LLMService.farObjects, LLMService.scenarioObjects, LLMService.chairObject,
      LLMService.couchObject, jsNumOr]
  · norm_num [LLMService.generateTemplateDescription, LLMService.scenarioObjects,
      LLMService.chairObject, LLMService.couchObject, LLMService.closeObjects,
      LLMService.farObjects, jsNumOr, List.filter]
    rfl

/-- Witness for C2 at a concrete disabled-cloud call. -/
theorem C2_witness :
    LLMService.generateSceneDescription false (.error "offline") [] "street" "dim" none 5
      = .ok { text := LLMService.generateTemplateDescription [] "street" "dim"
              confidence := 85 / 100
              processingTime := 5
              source := some Source.template } :=
  C2_amended.1 false (.error "offline") [] "street" "dim" none 5 (Or.inl rfl)

/-- Claim C8, counterexample: the claim asserts every cloud-sourced result
has confidence in [0.95, 0.98], but the cloud navigation-guidance
sub-operation returns the fixed constant 0.90, which is below 0.95. -/
theorem C8_counterexample :
    (MistralService.generateNavigationGuidance true (.ok "Go forward.") "door" []
        "find the door" 0).map (fun r => (r.confidence, r.source))
      = .ok (90 / 100, some Source.mistral) ∧
    ¬ (95 / 100 ≤ (90 / 100 : ℚ)) := by
  constructor
  · rfl
  · norm_num

/-- Claim C8, amended: every successful narration result carries a fixed
confidence constant determined only by the source and sub-operation, never
computed from model output (the returned constant is independent of the
completion text and of the scene data): cloud-sourced results have
confidence in [0.90, 0.98] (0.95 scene, 0.90 navigation, 0.92 question,
0.98 vision) and local/template-sourced results have confidence in
[0.75, 0.85] (0.85 scene, 0.80 navigation, 0.75 question). -/
theorem C8_amended :
    (∀ (content : String) (objects : List SceneObject)
        (sceneType lightingCondition : String) (detectedText : Option String) (elapsed : ℕ),
      (MistralService.generateEnhancedDescription true (.ok content) objects sceneType
          lightingCondition detectedText elapsed).map (fun r => (r.confidence, r.source))
        = .ok (95 / 100, some Source.mistral)) ∧
    (∀ (content targetObject : String) (currentObjects : List SceneObject)
        (userIntent : String) (elapsed : ℕ),
      (MistralService.generateNavigationGuidance true (.ok content) targetObject
          currentObjects userIntent elapsed).map (fun r => (r.confidence, r.source))
        = .ok (90 / 100, some Source.mistral)) ∧
    (∀ (content question : String) (objects : List SceneObject)
        (sceneType lightingCondition : String) (elapsed : ℕ),
      (MistralService.answerQuestion true (.ok content) question objects sceneType
          lightingCondition elapsed).map (fun r => (r.confidence, r.source))
        = .ok (92 / 100, some Source.mistral)) ∧
    (∀ (content imageBase64 mimeType : String) (elapsed : ℕ),
      (MistralService.analyzeImageWithVision true (.ok content) imageBase64 mimeType
          elapsed).map (fun r => (r.confidence, r.source))
        = .ok (98 / 100, some Source.mistral)) ∧
    (∀ (net : Except String String) (objects : List SceneObject)
        (sceneType lightingCondition : String) (detectedText : Option String) (elapsed : ℕ),
      (LLMService.generateSceneDescription false net objects sceneType lightingCondition
          detectedText elapsed).map (fun r => (r.confidence, r.source))
        = .ok (85 / 100, some Source.template)) ∧
    (∀ (net : Except String String) (targetObject : String)
        (currentObjects : List SceneObject) (userIntent : String) (elapsed : ℕ),
      (LLMService.generateNavigationGuidance false net targetObject currentObjects
          userIntent elapsed).map (fun r => (r.confidence, r.source))
        = .ok (80 / 100, some Source.template)) ∧
    (∀ (net : Except String String) (question : String) (objects : List SceneObject)
        (sceneType lightingCondition : String) (elapsed : ℕ),
      (LLMService.answerQuestion false net question objects sceneType lightingCondition
          elapsed).map (fun r => (r.confidence, r.source))
        = .ok (75 / 100, some Source.template)) ∧
    ((90 / 100 ≤ (95 / 100 : ℚ) ∧ (95 / 100 : ℚ) ≤ 98 / 100) ∧
     (90 / 100 ≤ (90 / 100 : ℚ) ∧ (90 / 100 : ℚ) ≤ 98 / 100) ∧
     (90 / 100 ≤ (92 / 100 : ℚ) ∧ (92 / 100 : ℚ) ≤ 98 / 100) ∧
     (90 / 100 ≤ (98 / 100 : ℚ) ∧ (98 / 100 : ℚ) ≤ 98 / 100) ∧
     (75 / 100 ≤ (85 / 100 : ℚ) ∧ (85 / 100 : ℚ) ≤ 85 / 100) ∧
     (75 / 100 ≤ (80 / 100 : ℚ) ∧ (80 / 100 : ℚ) ≤ 85 / 100) ∧
     (75 / 100 ≤ (75 / 100 : ℚ) ∧ (75 / 100 : ℚ) ≤ 85 / 100)) := by
  refine ⟨?_, ?_, ?_, ?_, ?_, ?_, ?_, ?_⟩
  · intro content objects sceneType lightingCondition detectedText elapsed; rfl
  · intro content targetObject currentObjects userIntent elapsed; rfl
  · intro content question objects sceneType lightingCondition elapsed; rfl
  · intro content imageBase64 mimeType elapsed; rfl
  · intro net objects sceneType lightingCondition detectedText elapsed; rfl
  · intro net targetObject currentObjects userIntent elapsed; rfl
  · intro net question objects sceneType lightingCondition elapsed; rfl
  · norm_num

/-- Claim C10: in the local template description, an object whose distance
is absent, and likewise one whose distance is exactly 0 (both falsy under
the JS `o.distance || 10` default), is treated as 10 meters away and lands
in the far ("Further away") group, never in the close group. -/
theorem C10_default_distance_far (objects : List SceneObject) (o : SceneObject)
    (ho : o ∈ objects) (hd : o.distance = none ∨ o.distance = some 0) :
    jsNumOr o.distance 10 = 10 ∧
    o ∈ LLMService.farObjects objects ∧
    o ∉ LLMService.closeObjects objects := by
  have h10 : jsNumOr o.distance 10 = 10 := by
    rcases hd with h | h <;> simp [jsNumOr, h]
  refine ⟨h10, ?_, ?_⟩
  · rw [LLMService.farObjects, List.mem_filter]
    exact ⟨ho, by rw [h10]; norm_num⟩
  · rw [LLMService.closeObjects, List.mem_filter]
    rintro ⟨-, hlt⟩
    rw [h10] at hlt
    norm_num at hlt

/-- Witness for C10: the absent-distance object among a concrete pair. -/
theorem C10_witness :
    jsNumOr LLMService.mysteryObject.distance 10 = 10 ∧
    LLMService.mysteryObject ∈
      LLMService.farObjects [LLMService.mysteryObject, LLMService.zeroDistanceObject] ∧
    LLMService.mysteryObject ∉
      LLMService.closeObjects [LLMService.mysteryObject, LLMService.zeroDistanceObject] :=
  C10_default_distance_far _ _ (List.mem_cons_self _ _) (Or.inl rfl)

/-- Claim C3: with a cycle already in flight (the `isProcessing` guard set),
a second trigger of `analyzeCurrentFrame` is a no-op — for every environment
it changes no state, emits no output and queues nothing; and from an idle
state, two back-to-back triggers with no intervening completion enter
exactly one cycle: the first `beginCycle` enters, the second is dropped
leaving the state unchanged. -/
theorem C3_single_flight :
    (∀ (speakResult : Bool) (s : CameraScreen.OrchState) (env : CameraScreen.CycleEnv),
      s.isProcessing = true →
      CameraScreen.analyzeCurrentFrame speakResult s env = (s, [])) ∧
    (∀ s : CameraScreen.OrchState, s.hasCamera = true → s.isProcessing = false →
      (CameraScreen.beginCycle s).2 = true ∧
      CameraScreen.beginCycle (CameraScreen.beginCycle s).1
        = ((CameraScreen.beginCycle s).1, false)) := by
  constructor
  · intro speakResult s env h
    simp [CameraScreen.analyzeCurrentFrame, CameraScreen.beginCycle, h]
  · intro s hc hp
    simp [CameraScreen.beginCycle, hc, hp]

/-- Witness for C3: a busy state with a benign environment, and the
back-to-back double trigger from the concrete idle state. -/
theorem C3_witness :
    CameraScreen.analyzeCurrentFrame true CameraScreen.busyState CameraScreen.benignEnv
        = (CameraScreen.busyState, []) ∧
    (CameraScreen.beginCycle CameraScreen.idleState).2 = true ∧
    CameraScreen.beginCycle (CameraScreen.beginCycle CameraScreen.idleState).1
      = ((CameraScreen.beginCycle CameraScreen.idleState).1, false) :=
  ⟨C3_single_flight.1 true CameraScreen.busyState CameraScreen.benignEnv rfl,
   C3_single_flight.2 CameraScreen.idleState rfl rfl⟩

/-- Claim C7: on every exit path of a capture cycle — the environment
oracle ranges over normal completion, capture failure, inference failure
and every other error, all of which funnel through the `finally` — the
single-flight guard ends up released, so a later trigger can start a new
cycle. -/
theorem C7_guard_released (speakResult : Bool) (s : CameraScreen.OrchState)
    (env : CameraScreen.CycleEnv) (hidle : s.isProcessing = false) :
    ((CameraScreen.analyzeCurrentFrame speakResult s env).1).isProcessing = false := by
  by_cases hc : s.hasCamera
  · simp [CameraScreen.analyzeCurrentFrame, CameraScreen.beginCycle, CameraScreen.endCycle,
      hc, hidle]
  · simp [CameraScreen.analyzeCurrentFrame, CameraScreen.beginCycle,
      Bool.not_eq_true _ ▸ hc, hidle, hc]

/-- Witness for C7 on a concrete error path: the capture call throws, and
the guard is still released. -/
theorem C7_witness :
    ((CameraScreen.analyzeCurrentFrame true CameraScreen.idleState
        CameraScreen.captureFailEnv).1).isProcessing = false :=
  C7_guard_released true CameraScreen.idleState CameraScreen.captureFailEnv rfl

/-- Claim C6: with utterance B speaking, a priority `speak(C)` stops the
ongoing utterance, discards the whole queue (any queued A is lost) and
starts C immediately; a non-priority `speak(t)` while something is speaking
appends `t` to the FIFO queue and starts nothing; and on completion of the
current utterance the next queue entry is dequeued and spoken. -/
theorem C6_voice_channel :
    (∀ (s : VoiceService.VoiceState) (c : String), s.isSpeaking = true →
      VoiceService.speak s c true true
        = ({ isSpeaking := true, speechQueue := [] },
           [VoiceService.VEvent.stop, VoiceService.VEvent.utter c])) ∧
    (∀ (s : VoiceService.VoiceState) (t : String), s.isSpeaking = true →
      VoiceService.speak s t false true
        = ({ s with speechQueue := s.speechQueue ++ [t] }, [])) ∧
    (∀ (next : String) (rest : List String),
      VoiceService.utteranceDone { isSpeaking := true, speechQueue := next :: rest } true
        = ({ isSpeaking := true, speechQueue := rest }, [VoiceService.VEvent.utter next])) := by
  refine ⟨?_, ?_, ?_⟩
  · intro s c h
    simp [VoiceService.speak]
  · intro s t h
    simp [VoiceService.speak, h]
  · intro next rest
    simp [VoiceService.utteranceDone, VoiceService.speak]

/-- Witness for C6: B speaking with A queued, priority C preempts; then the
non-priority append and the completion dequeue at concrete states. -/
theorem C6_witness :
    VoiceService.speak { isSpeaking := true, speechQueue := ["A"] } "C" true true
        = ({ isSpeaking := true, speechQueue := [] },
           [VoiceService.VEvent.stop, VoiceService.VEvent.utter "C"]) ∧
    VoiceService.speak { isSpeaking := true, speechQueue := [] } "A" false true
        = ({ isSpeaking := true, speechQueue := ["A"] }, []) ∧
    VoiceService.utteranceDone { isSpeaking := true, speechQueue := ["A"] } true
        = ({ isSpeaking := true, speechQueue := [] }, [VoiceService.VEvent.utter "A"]) :=
  ⟨C6_voice_channel.1 { isSpeaking := true, speechQueue := ["A"] } "C" rfl,
   C6_voice_channel.2.1 { isSpeaking := true, speechQueue := [] } "A" rfl,
   C6_voice_channel.2.2 "A" []⟩

/-- Helper: the `warning` case of the haptic `switch` unrolls to three
(medium impact, 150 ms delay) pairs. -/
theorem warningSteps_eq :
    HapticService.patternSteps HapticService.HapticPattern.warning
      = HapticService.warningTrace := rfl

/-- Claim C9: triggering the `warning` haptic pattern on an enabled service
executes exactly 3 pulses, each followed by the configured 150 ms
inter-pulse delay, independently of any voice-channel state (the haptic
channel takes no voice input — the quantified `voiceState` is irrelevant to
the result); and any platform haptic failure is caught rather than
propagated: for every failure oracle the call still returns normally, with
the executed trace a prefix of the full pattern. -/
theorem C9_warning_pattern (voiceState : VoiceService.VoiceState) (ok : ℕ → Bool)
    (hok : ∀ k, ok k = true) :
    HapticService.trigger true HapticService.HapticPattern.warning ok
        = HapticService.warningTrace ∧
    (HapticService.trigger true HapticService.HapticPattern.warning ok).countP
        HapticService.isImpact = 3 ∧
    (∀ ok2 : ℕ → Bool, ∃ n,
      HapticService.trigger true HapticService.HapticPattern.warning ok2
        = HapticService.warningTrace.take n) := by
  have htrace : HapticService.trigger true HapticService.HapticPattern.warning ok
      = HapticService.warningTrace := by
    simp [HapticService.trigger, warningSteps_eq, HapticService.warningTrace,
      HapticService.runSteps, hok]
  refine ⟨htrace, ?_, ?_⟩
  · rw [htrace]
    rfl
  · intro ok2
    cases h0 : ok2 0 with
    | false =>
      exact ⟨0, by simp [HapticService.trigger, warningSteps_eq, HapticService.warningTrace,
        HapticService.runSteps, h0]⟩
    | true =>
      cases h1 : ok2 1 with
      | false =>
        exact ⟨2, by simp [HapticService.trigger, warningSteps_eq, HapticService.warningTrace,
          HapticService.runSteps, h0, h1]⟩
      | true =>
        cases h2 : ok2 2 with
        | false =>
          exact ⟨4, by simp [HapticService.trigger, warningSteps_eq, HapticService.warningTrace,
            HapticService.runSteps, h0, h1, h2]⟩
        | true =>
          exact ⟨6, by simp [HapticService.trigger, warningSteps_eq, HapticService.warningTrace,
            HapticService.runSteps, h0, h1, h2]⟩

/-- Witness for C9: the all-success oracle, with an arbitrary concrete voice
state, executes the full 3-pulse trace. -/
theorem C9_witness :
    HapticService.trigger true HapticService.HapticPattern.warning (fun _ => true)
        = HapticService.warningTrace ∧
    (HapticService.trigger true HapticService.HapticPattern.warning
        (fun _ => true)).countP HapticService.isImpact = 3 :=
  ⟨(C9_warning_pattern { isSpeaking := true, speechQueue := ["pending"] }
      (fun _ => true) (fun _ => rfl)).1,
   (C9_warning_pattern { isSpeaking := true, speechQueue := ["pending"] }
      (fun _ => true) (fun _ => rfl)).2.1⟩

end NeuroLens
